import Mathlib

/-!
Verification development for the GIMP MCP plugin (`gimp-mcp-plugin.py`).

The development shallowly embeds the two cores of the plugin:
* the bitmap extraction pipeline `_get_current_image_bitmap` (lines 284-614),
  including its working-image lifecycle, region validation, center-inside
  scaling, and the `try/finally` cleanup structure; and
* the command server: `exec_and_get_results` (lines 37-44), the dispatcher
  `execute_command` (lines 212-282) and the connection handler
  `_handle_client` (lines 153-210).

External collaborators (the GIMP host, `json.loads`, the PNG exporters) are
modelled as oracles/parameters, mirroring the spec's statement that these are
out-of-scope collaborators: the host is a `GimpEnv` describing the open images
and whether the scale / export host calls succeed, and JSON parsing is an
abstract `String → Option JObj` function.  Client-submitted Python code
strings are embedded as the small abstract syntax `Code`, whose statement
(`exec`) and expression (`eval`) semantics act on explicit namespaces.
Machine-level concerns (sockets, threads, bytes-vs-str) are represented by
pure data: a connection is the list of chunks the peer sends before closing.
-/

namespace GimpMcp

/-! ### JSON-ish values appearing in a `region` dict

`_get_current_image_bitmap` validates the values of the six recognized region
keys with `isinstance(_, int)` checks, so a region value is embedded as either
an integer or a non-integer carrying its Python type name. -/

inductive PyVal where
  | vint (n : Int)
  | vother (typeName : String)
deriving DecidableEq

/-- The `region` dict of a `get_image_bitmap` request.  Each of the six keys
the plugin reads (`region.get(...)`, lines 317-322) is `none` when absent (or
explicitly `null`, which all code paths treat the same way).  `hasOtherKeys`
records whether the dict holds any further entries, which only matters for the
Python truthiness test `if region:` (line 300). -/
structure RegionDict where
  origin_x : Option PyVal := none
  origin_y : Option PyVal := none
  width : Option PyVal := none
  height : Option PyVal := none
  max_width : Option PyVal := none
  max_height : Option PyVal := none
  hasOtherKeys : Bool := false
deriving DecidableEq

/-- Python truthiness of the region dict (`if region:`, line 300): a dict is
truthy iff it is non-empty. -/
def RegionDict.truthy (r : RegionDict) : Bool :=
  r.hasOtherKeys || r.origin_x.isSome || r.origin_y.isSome || r.width.isSome ||
    r.height.isSome || r.max_width.isSome || r.max_height.isSome

/-- The `params` object of a `get_image_bitmap` request (lines 293-297).  The
top-level `max_width`/`max_height` are never type-validated by the plugin; the
embedding restricts them to integer-or-absent (a non-integer value would raise
`TypeError` out of the pipeline into the dispatcher, a path no claim touches). -/
structure BitmapParams where
  max_width : Option Int := none
  max_height : Option Int := none
  region : RegionDict := {}
deriving DecidableEq

/-! ### The GIMP host oracle -/

/-- One open image in the host, as far as the pipeline observes it. -/
structure GImage where
  width : Nat
  height : Nat
  layers : Nat
deriving DecidableEq

/-- The GIMP host's behaviour during one pipeline invocation: the list of open
images (`Gimp.get_images()`), whether `Image.scale` raises (line 468), and
whether the PNG-export block (lines 502-563, primary procedure plus its
fallbacks) succeeds. -/
structure GimpEnv where
  images : List GImage
  scaleFails : Bool := false
  exportOk : Bool := true
deriving DecidableEq

/-- A working image handle inside one pipeline invocation.  `id 0` is the
original source image; `id 1` the region-crop image created by
`Gimp.Image.new` (line 365); `id 2` the scaled duplicate (line 459). -/
structure WImg where
  id : Nat
  width : Nat
  height : Nat
  layers : Nat
deriving DecidableEq

/-- Resource events of one pipeline invocation, in program order. -/
inductive Ev where
  | created (id : Nat)
  | deleted (id : Nat)
  | tempFileCreated
  | tempFileDeleted
deriving DecidableEq, BEq

/-! ### Result envelopes -/

/-- The `processing_applied`/dimension metadata of a successful bitmap
response (lines 574-590).  The base64 PNG payload itself is produced by the
external export procedure and is not part of the embedding. -/
structure BitmapSuccess where
  width : Nat
  height : Nat
  original_width : Nat
  original_height : Nat
  region_extracted : Bool
  scaled : Bool
  region_coords : Option (Int × Int × Int × Int)
deriving DecidableEq

/-- Client Python code submitted to exec/eval sub-modes, embedded as a small
abstract syntax whose two semantics (statement execution and expression
evaluation) act on explicit namespaces. -/
inductive Code where
  | assign (x : String) (n : Int)
  | name (x : String)
  | lit (n : Int)
  | printLit (s : String)
  | raiseErr (msg : String)
deriving DecidableEq

/-- The `results` field of an envelope. -/
inductive RVal where
  | str (s : String)
  | vals (l : List String)
  | bitmap (b : BitmapSuccess)
  | info (tag : String)
deriving DecidableEq

/-- The uniform result envelope `{status, results?, error?, traceback?}`. -/
structure Resp where
  status : String
  results : Option RVal := none
  error : Option String := none
  traceback : Option String := none
deriving DecidableEq

/-- Model of `traceback.format_exc()` for an exception with message `e`: some
non-empty stack-trace string mentioning the message. -/
def pyTraceback (e : String) : String :=
  "Traceback (most recent call last): " ++ e

/-! ### Bitmap pipeline: validation -/

def regionTypeErrResp (key : String) (got : String) : Resp :=
  { status := "error",
    error := some ("Region parameter " ++ key ++ " must be of type int, got " ++ got) }

def regionNegErrResp (key : String) (n : Int) : Resp :=
  { status := "error",
    error := some ("Region parameter " ++ key ++ " must be non-negative, got " ++ toString n) }

/-- One iteration of the validation loop of lines 302-315 for key `key`:
`isinstance(_, int)` check, then non-negativity. -/
def checkRegionField (key : String) (v : Option PyVal) : Option Resp :=
  match v with
  | none => none
  | some (.vint n) => if n < 0 then some (regionNegErrResp key n) else none
  | some (.vother t) => some (regionTypeErrResp key t)

/-- The region validation block of lines 300-315: run only when the region
dict is truthy, checking the six keys in the loop's order and short-circuiting
at the first violation. -/
def validateRegion (r : RegionDict) : Option Resp :=
  if r.truthy then
    match checkRegionField "origin_x" r.origin_x with
    | some e => some e
    | none =>
      match checkRegionField "origin_y" r.origin_y with
      | some e => some e
      | none =>
        match checkRegionField "width" r.width with
        | some e => some e
        | none =>
          match checkRegionField "height" r.height with
          | some e => some e
          | none =>
            match checkRegionField "max_width" r.max_width with
            | some e => some e
            | none => checkRegionField "max_height" r.max_height
  else none

/-- `region.get(key)` as an integer: after validation succeeded, every present
value is an int, so the non-int case never materializes on live paths. -/
def asInt : Option PyVal → Option Int
  | some (.vint n) => some n
  | _ => none

/-! ### Bitmap pipeline: scaling arithmetic -/

/-- Python `int(_)` applied to a (real-valued) intermediate: truncation toward
zero.  The plugin's divisions are IEEE doubles; the embedding uses exact
rationals, which agree with the doubles on all inputs the claims name. -/
def pyInt (q : ℚ) : Int :=
  if 0 ≤ q then ⌊q⌋ else -⌊-q⌋

/-- The center-inside computation of lines 442-452: `aspect_ratio` and
`max_aspect_ratio` are real divisions; the limiting dimension is set to its
bound and the other is `int(_)`-derived from the exact ratio. -/
def centerInsideScale (cw ch : Nat) (mw mh : Int) : Int × Int :=
  let aspect_ratio : ℚ := (cw : ℚ) / (ch : ℚ)
  let max_aspect_ratio : ℚ := (mw : ℚ) / (mh : ℚ)
  if aspect_ratio > max_aspect_ratio then
    (mw, pyInt ((mw : ℚ) / aspect_ratio))
  else
    (pyInt ((mh : ℚ) * aspect_ratio), mh)

/-- Scale-target selection of lines 430-437: the region-level pair is used
when *both* its members are present, else the top-level pair when both are
present, else no scaling. -/
def chooseScaleTarget (stw sth tmw tmh : Option Int) : Option (Int × Int) :=
  match stw, sth with
  | some w, some h => some (w, h)
  | _, _ =>
    match tmw, tmh with
    | some w, some h => some (w, h)
    | _, _ => none

/-! ### Bitmap pipeline: stage functions -/

def noImagesResp : Resp :=
  { status := "error", error := some "No images are currently open in GIMP" }

def requiredParamsResp : Resp :=
  { status := "error",
    error := some "For region selection, all parameters are required: origin_x, origin_y, width, height" }

def boundsResp (iw ih : Nat) (x y w h : Int) : Resp :=
  { status := "error",
    error := some ("Region bounds invalid. Image size: " ++ toString iw ++ "x" ++
      toString ih ++ ", requested region: (" ++ toString x ++ "," ++ toString y ++
      ") " ++ toString w ++ "x" ++ toString h) }

def noLayersOrigResp : Resp :=
  { status := "error", error := some "No layers found in original image" }

def noLayersProcessedResp : Resp :=
  { status := "error", error := some "No layers found in the processed image" }

def exportFailedResp : Resp :=
  { status := "error", error := some "All export methods failed" }

def scaleFailMsg (cw ch : Nat) (tw th : Int) : String :=
  "Failed to scale image from " ++ toString cw ++ "x" ++ toString ch ++ " to " ++
    toString tw ++ "x" ++ toString th ++ ": scaling backend error"

/-- The envelope produced when `final_image.scale` raises: the re-raised
`RuntimeError` of line 476 is caught by the handler of lines 609-614, which
prefixes `Processing error: ` and attaches a traceback. -/
def scaleFailedResp (cw ch : Nat) (tw th : Int) : Resp :=
  { status := "error",
    error := some ("Processing error: " ++ scaleFailMsg cw ch tw th),
    traceback := some (pyTraceback (scaleFailMsg cw ch tw th)) }

/-- Lines 344-417: determine the working image.  In the region branch the crop
image (`id 1`) is created by `Gimp.Image.new` at line 365 *before* the
original image's layer list is inspected at line 373, so the early return of
lines 375-378 happens with the crop already created (and, as the trace shows,
never deleted).  The select/copy/paste/anchor host calls are external and
leave one layer in the crop. -/
def regionStep (original : GImage) (ox oy rw rh : Option Int) :
    Except (Resp × List Ev) (WImg × Bool × List Ev) :=
  if ox.isSome || oy.isSome || rw.isSome || rh.isSome then
    match ox, oy, rw, rh with
    | some x, some y, some w, some h =>
      if x < 0 ∨ y < 0 ∨ x + w > (original.width : Int) ∨ y + h > (original.height : Int) then
        .error (boundsResp original.width original.height x y w h, [])
      else if original.layers = 0 then
        .error (noLayersOrigResp, [Ev.created 1])
      else
        .ok (⟨1, w.toNat, h.toNat, 1⟩, true, [Ev.created 1])
    | _, _, _, _ => .error (requiredParamsResp, [])
  else
    .ok (⟨0, original.width, original.height, original.layers⟩, false, [])

/-- Lines 456-476: duplicate-and-scale when the target dimensions differ from
the working image's.  On a scaling failure the duplicate is deleted and the
re-raised error escapes to the outer handler (no other cleanup runs, since the
`try/finally` of lines 482-607 has not been entered yet). -/
def scaleStep (env : GimpEnv) (working : WImg) (sdw : Bool)
    (target? : Option (Int × Int)) (tw th : Int) :
    Except (Resp × List Ev) (WImg × Bool × List Ev) :=
  match target? with
  | none => .ok (working, sdw, [])
  | some _ =>
    if tw ≠ (working.width : Int) ∨ th ≠ (working.height : Int) then
      if env.scaleFails then
        .error (scaleFailedResp working.width working.height tw th,
          [Ev.created 2, Ev.deleted 2])
      else
        .ok (⟨2, tw.toNat, th.toNat, working.layers⟩, true, [Ev.created 2])
    else
      .ok (working, sdw, [])

/-- The `region_coords` entry of line 587: present iff `origin_x` is. On every
live success path the other three coordinates are then present as well. -/
def regionCoords (ox oy rw rh : Option Int) : Option (Int × Int × Int × Int) :=
  match ox with
  | none => none
  | some x => some (x, oy.getD 0, rw.getD 0, rh.getD 0)

/-- `_get_current_image_bitmap` (lines 284-614), returning the envelope and
the ordered resource-event trace of the invocation.  The structure mirrors the
source: validation and working-image determination happen before the
temporary file is allocated at line 479, and only the export section (lines
482-590) is guarded by the `finally` cleanup of lines 592-607. -/
def get_current_image_bitmap (env : GimpEnv) (params : BitmapParams) :
    Resp × List Ev :=
  match validateRegion params.region with
  | some err => (err, [])
  | none =>
    let origin_x := asInt params.region.origin_x
    let origin_y := asInt params.region.origin_y
    let region_width := asInt params.region.width
    let region_height := asInt params.region.height
    let scaled_to_width := asInt params.region.max_width
    let scaled_to_height := asInt params.region.max_height
    match env.images with
    | [] => (noImagesResp, [])
    | original :: _ =>
      match regionStep original origin_x origin_y region_width region_height with
      | .error r => r
      | .ok (working, should_delete_working, tr1) =>
        let target? := chooseScaleTarget scaled_to_width scaled_to_height
          params.max_width params.max_height
        let target : Int × Int :=
          match target? with
          | some (mw, mh) => centerInsideScale working.width working.height mw mh
          | none => ((working.width : Int), (working.height : Int))
        match scaleStep env working should_delete_working target? target.1 target.2 with
        | .error (r, tr2) => (r, tr1 ++ tr2)
        | .ok (finalImg, should_delete_final, tr2) =>
          let scaled : Bool :=
            if target.1 = (working.width : Int) ∧ target.2 = (working.height : Int)
            then false else true
          let innerResp : Resp :=
            if finalImg.layers = 0 then noLayersProcessedResp
            else if env.exportOk then
              { status := "success",
                results := some (.bitmap
                  { width := finalImg.width, height := finalImg.height,
                    original_width := original.width,
                    original_height := original.height,
                    region_extracted :=
                      origin_x.isSome || origin_y.isSome ||
                        region_width.isSome || region_height.isSome,
                    scaled := scaled,
                    region_coords :=
                      regionCoords origin_x origin_y region_width region_height }) }
            else exportFailedResp
          let cleanup : List Ev :=
            (if should_delete_final ∧ finalImg.id ≠ working.id
              then [Ev.deleted finalImg.id] else []) ++
            (if should_delete_working ∧ working.id ≠ 0
              then [Ev.deleted working.id] else []) ++
            [Ev.tempFileDeleted]
          (innerResp, tr1 ++ tr2 ++ [Ev.tempFileCreated] ++ cleanup)

/-! ### Namespaces and the exec/eval semantics -/

/-- A Python namespace dict (`self.context`, the module globals), as an
association list from names to (integer-modelled) values. -/
abbrev Ctx := List (String × Int)

def ctxGet : Ctx → String → Option Int
  | [], _ => none
  | (y, v) :: rest, x => if y = x then some v else ctxGet rest x

def ctxSet : Ctx → String → Int → Ctx
  | [], x, v => [(x, v)]
  | (y, w) :: rest, x, v =>
    if y = x then (x, v) :: rest else (y, w) :: ctxSet rest x v

/-- `exec(command, context)`: statement semantics over the given namespace,
returning the updated namespace and the text the statement printed, or the
message of the exception it raised. -/
def execStmt : Code → Ctx → Except String (Ctx × String)
  | .assign x n, c => .ok (ctxSet c x n, "")
  | .name x, c =>
    match ctxGet c x with
    | some _ => .ok (c, "")
    | none => .error ("NameError: name " ++ x ++ " is not defined")
  | .lit _, c => .ok (c, "")
  | .printLit s, c => .ok (c, s ++ "\n")
  | .raiseErr m, _ => .error m

/-- `str(eval(e))`: expression semantics over the given namespace (for the
plugin this is the module's global namespace, *not* `self.context`), returning
the stringified value or the raised exception's message. -/
def evalExpr : Code → Ctx → Except String String
  | .assign _ _, _ => .error "SyntaxError: invalid syntax"
  | .name x, g =>
    match ctxGet g x with
    | some v => .ok (toString v)
    | none => .error ("NameError: name " ++ x ++ " is not defined")
  | .lit n, _ => .ok (toString n)
  | .printLit _, _ => .ok "None"
  | .raiseErr m, _ => .error m

/-- Where `sys.stdout` currently points: the process's real stdout, or a
`StringIO` capture buffer installed by `exec_and_get_results`. -/
inductive StdoutTarget where
  | real
  | captureBuffer
deriving DecidableEq

/-- Process-wide interpreter state outside the namespaces. -/
structure ProcState where
  stdout : StdoutTarget
deriving DecidableEq

/-- `exec_and_get_results` (lines 37-44): redirect `sys.stdout` into a fresh
capture buffer, `exec` the statement, restore stdout and return the captured
output.  The restore (line 42) runs only if `exec` returns normally: a raised
exception propagates with `sys.stdout` still bound to the capture buffer. -/
def exec_and_get_results (command : Code) (context : Ctx) (st : ProcState) :
    Except String (String × Ctx) × ProcState :=
  let redirected : ProcState := { stdout := .captureBuffer }
  match execStmt command context with
  | .error e => (.error e, redirected)
  | .ok (context', output) => (.ok (output, context'), { stdout := st.stdout })

/-- The list comprehension of line 264: run each statement through
`exec_and_get_results` against the shared context, collecting outputs; the
first raised exception aborts the comprehension, keeping the context updates
of the statements already run. -/
def execList (cs : List Code) (context : Ctx) (st : ProcState) :
    Except String (List String) × Ctx × ProcState :=
  match cs with
  | [] => (.ok [], context, st)
  | c :: rest =>
    match exec_and_get_results c context st with
    | (.error e, st') => (.error e, context, st')
    | (.ok (out, context'), st') =>
      match execList rest context' st' with
      | (.ok outs, context'', st'') => (.ok (out :: outs), context'', st'')
      | (.error e, context'', st'') => (.error e, context'', st'')

/-- The list comprehension of line 248: evaluate each expression (against the
module globals), collecting stringified values, aborting at the first raised
exception. -/
def evalList (es : List Code) (g : Ctx) : Except String (List String) :=
  match es with
  | [] => .ok []
  | e :: rest =>
    match evalExpr e g with
    | .error err => .error err
    | .ok v =>
      match evalList rest g with
      | .error err => .error err
      | .ok vs => .ok (v :: vs)

/-! ### The decoded wire message -/

/-- An element of a decoded `params.args` JSON list: a string, or a list of
code strings. -/
inductive JVal where
  | str (s : String)
  | codes (l : List Code)
deriving DecidableEq

/-- The decoded `params` object: the optional `args` list, plus its reading as
bitmap parameters when routed to `get_image_bitmap`. -/
structure JParams where
  args : Option (List JVal) := none
  bitmap : BitmapParams := {}
deriving DecidableEq

/-- A decoded JSON request object, restricted to the keys the dispatcher
reads: `type`, `cmds`, `params`. -/
structure JObj where
  type : Option String := none
  cmds : Option (List Code) := none
  params : Option JParams := none
deriving DecidableEq

/-- Abstract model of `json.loads` on request strings: `none` means the parse
raises (incomplete or malformed JSON). -/
abbrev JsonParse := String → Option JObj

/-! ### Server state and the dispatcher -/

/-- The plugin's process-wide mutable state: the persistent execution context
`self.context` (initialized at lines 55-56 by `exec`-ing the Gimp import into
an empty dict), the `auto_disconnect_client` flag, and the interpreter's
stdout binding. -/
structure ServerState where
  context : Ctx
  autoDisconnect : Bool
  proc : ProcState
deriving DecidableEq

/-- The initial server state (lines 55-57): the context holds the imported
`Gimp` module binding, auto-disconnect is enabled, stdout is the real one. -/
def initialServerState : ServerState :=
  { context := [("Gimp", 0)], autoDisconnect := true, proc := { stdout := .real } }

def emptyArgsResp : Resp :=
  { status := "error", error := some "No command arguments provided" }

/-- The message of the `json.JSONDecodeError` raised by `json.loads` at line
222 on malformed input. -/
def jsonDecodeErrMsg : String := "Expecting value: line 1 column 1 (char 0)"

/-- Host introspection handlers other than the bitmap pipeline; their payloads
are external pass-through data collapsed to tagged success envelopes (or the
no-images error for metadata). -/
def get_current_image_metadata (env : GimpEnv) : Resp :=
  match env.images with
  | [] => noImagesResp
  | _ :: _ => { status := "success", results := some (.info "image_metadata") }

def get_gimp_info : Resp :=
  { status := "success", results := some (.info "gimp_info") }

def get_context_state : Resp :=
  { status := "success", results := some (.info "context_state") }

/-- Lines 238-273: the empty-args guard and the eval/exec sub-mode dispatch.
Returns the envelope (or a raised exception's message) together with the
updated persistent context and interpreter state.  An `a[1]` that is a string
rather than a list is modelled as raising (iterating its characters as code is
not modelled). -/
def dispatchArgs (g : Ctx) (a : List JVal) (context : Ctx) (pst : ProcState) :
    Except String Resp × Ctx × ProcState :=
  match a with
  | [] => (.ok emptyArgsResp, context, pst)
  | a0 :: _ =>
    if a0 = JVal.str "python-fu-eval" then
      if a.length > 0 then
        match a.get? 1 with
        | none => (.error "list index out of range", context, pst)
        | some (.str _) => (.error "TypeError: exec arg must be code", context, pst)
        | some (.codes es) =>
          match evalList es g with
          | .error e => (.error e, context, pst)
          | .ok vals =>
            (.ok { status := "success", results := some (.vals vals) }, context, pst)
      else
        (.ok { status := "success", results := some (.str "[NULL]") }, context, pst)
    else
      if a.length > 0 then
        match a.get? 1 with
        | none => (.error "list index out of range", context, pst)
        | some (.str _) => (.error "TypeError: exec arg must be code", context, pst)
        | some (.codes cs) =>
          match execList cs context pst with
          | (.ok outs, context', pst') =>
            (.ok { status := "success", results := some (.vals outs) }, context', pst')
          | (.error e, context', pst') => (.error e, context', pst')
      else
        (.ok { status := "success", results := some (.vals ["OK"]) }, context, pst)

/-- The body of `execute_command` (lines 216-273), before the `except` wrapper
of lines 275-282: routing, sub-mode dispatch, and the state updates they
perform.  A `.error` outcome is a raised exception reaching line 275. -/
def execute_command_body (env : GimpEnv) (g : Ctx) (parse : JsonParse)
    (st : ServerState) (request : String) : Except String Resp × ServerState :=
  if request = "disable_auto_disconnect" then
    (.ok { status := "success", results := some (.str "OK") },
      { st with autoDisconnect := false })
  else
    match parse request with
    | none => (.error jsonDecodeErrMsg, st)
    | some j =>
      if j.type = some "get_image_bitmap" then
        (.ok (get_current_image_bitmap env ((j.params.map (·.bitmap)).getD {})).1, st)
      else if j.type = some "get_image_metadata" then
        (.ok (get_current_image_metadata env), st)
      else if j.type = some "get_gimp_info" then
        (.ok get_gimp_info, st)
      else if j.type = some "get_context_state" then
        (.ok get_context_state, st)
      else
        match j.cmds with
        | some l =>
          let a := [JVal.str "python-fu-exec", JVal.codes l]
          match dispatchArgs g a st.context st.proc with
          | (r, context', pst') => (r, { st with context := context', proc := pst' })
        | none =>
          match j.params with
          | none => (.error "KeyError: params", st)
          | some p =>
            match p.args with
            | none => (.error "KeyError: args", st)
            | some a =>
              match dispatchArgs g a st.context st.proc with
              | (r, context', pst') => (r, { st with context := context', proc := pst' })

/-- `execute_command` (lines 212-282): the body wrapped by the `except
Exception` handler that converts any raised exception into an error envelope
carrying the message and a traceback string. -/
def execute_command (env : GimpEnv) (g : Ctx) (parse : JsonParse)
    (st : ServerState) (request : String) : Resp × ServerState :=
  match execute_command_body env g parse st request with
  | (.ok r, st') => (r, st')
  | (.error e, st') =>
    ({ status := "error", error := some e, traceback := some (pyTraceback e) }, st')

/-! ### The connection handler and server loop -/

/-- Python truthiness of `s.strip()` (line 175): true iff the string holds a
non-whitespace character. -/
def pyStripTruthy (s : String) : Bool :=
  s.data.any (fun ch => !ch.isWhitespace)

/-- The receive loop of lines 159-180: append each received chunk to the
buffer and stop as soon as the buffer is non-blank and parses as one complete
JSON document; a zero-length read (modelled by exhausting `chunks`) breaks out
with whatever has accumulated.  Returns the buffer at loop exit. -/
def readLoop (parse : JsonParse) (chunks : List String) (buffer : String) : String :=
  match chunks with
  | [] => buffer
  | c :: rest =>
    let buffer' := buffer ++ c
    if pyStripTruthy buffer' && (parse buffer').isSome then buffer'
    else readLoop parse rest buffer'

/-- `_handle_client` (lines 153-210): read a message, bail out silently if the
peer closed with an empty buffer, otherwise dispatch and send the response,
closing the connection iff auto-disconnect is (still) enabled.  Returns the
response written (if any), whether the connection was closed, and the new
server state.  The sentinel string `"disable_auto_disconnect"` is not valid
JSON, so it only completes a message when the peer half-closes. -/
def handle_client (env : GimpEnv) (g : Ctx) (parse : JsonParse)
    (st : ServerState) (chunks : List String) :
    Option Resp × Bool × ServerState :=
  let buffer := readLoop parse chunks ""
  if buffer = "" then (none, false, st)
  else
    let (response, st') := execute_command env g parse st buffer
    (some response, st'.autoDisconnect, st')

/-- The server's lifetime over a sequence of connections, processed in order
(worker threads are serialized here; the shared state is unsynchronized in the
source and the spec documents the race as intentional).  Produces the final
server state and, per connection, the response written (if any) and whether
the connection was closed. -/
def serverRun (env : GimpEnv) (g : Ctx) (parse : JsonParse) :
    ServerState → List (List String) → ServerState × List (Option Resp × Bool)
  | st, [] => (st, [])
  | st, conn :: rest =>
    match handle_client env g parse st conn with
    | (response, closed, st') =>
      match serverRun env g parse st' rest with
      | (stFinal, outs) => (stFinal, (response, closed) :: outs)

/-! ### Derived routing observations -/

/-- Whether the `type` field matches one of the four introspection routes of
lines 223-231 (routing happens only on an exact match; any other `type` value
falls through to the `cmds` / `params.args` extraction). -/
def isIntrospectionRoute (t : Option String) : Bool :=
  t = some "get_image_bitmap" || t = some "get_image_metadata" ||
    t = some "get_gimp_info" || t = some "get_context_state"

/-- Whether a statement assigns the name `x`. -/
def codeAssigns (c : Code) (x : String) : Bool :=
  match c with
  | .assign y _ => y = x
  | _ => false

/-- The statements an args list would feed to `exec` (empty for the eval
sub-mode and for malformed argument shapes). -/
def argsExecCodes (a : List JVal) : List Code :=
  match a with
  | [] => []
  | a0 :: _ =>
    if a0 = JVal.str "python-fu-eval" then []
    else
      match a.get? 1 with
      | some (.codes cs) => cs
      | _ => []

/-- The statements a request string would feed to `exec`, following the
dispatcher's routing. -/
def requestExecCodes (parse : JsonParse) (r : String) : List Code :=
  if r = "disable_auto_disconnect" then []
  else
    match parse r with
    | none => []
    | some j =>
      if isIntrospectionRoute j.type then []
      else
        match j.cmds with
        | some l => argsExecCodes [JVal.str "python-fu-exec", JVal.codes l]
        | none =>
          match j.params with
          | none => []
          | some p =>
            match p.args with
            | none => []
            | some a => argsExecCodes a

/-! ### Concrete demonstration inputs

A concrete host environment, module-global namespace and `json.loads`
fragment used by the closed counterexample/witness theorems.  The request
strings are the literal JSON documents a client would send, and `demoParse`
decodes exactly those documents. -/

def demoEnv : GimpEnv := { images := [] }

/-- The plugin module's global namespace as `eval` sees it: module-level
imports (here the `Gimp` binding), and no client-defined variables. -/
def demoGlobals : Ctx := [("Gimp", 0)]

def reqDefineX : String := "\x7b\"cmds\": [\"x = 5\"]\x7d"

def reqReadX : String := "\x7b\"cmds\": [\"x\"]\x7d"

def reqEvalX : String :=
  "\x7b\"params\": \x7b\"args\": [\"python-fu-eval\", [\"x\"]]\x7d\x7d"

def reqEmptyArgs : String := "\x7b\"params\": \x7b\"args\": []\x7d\x7d"

def reqRaise : String := "\x7b\"cmds\": [\"raise Exception(0)\"]\x7d"

def demoParse : JsonParse := fun r =>
  if r = reqDefineX then some { cmds := some [Code.assign "x" 5] }
  else if r = reqReadX then some { cmds := some [Code.name "x"] }
  else if r = reqEvalX then
    some { params := some ⟨some [JVal.str "python-fu-eval", JVal.codes [Code.name "x"]], {}⟩ }
  else if r = reqEmptyArgs then some { params := some { args := some [] } }
  else if r = reqRaise then some { cmds := some [Code.raiseErr "Exception: 0"] }
  else none

/-! ### Namespace lemmas -/

theorem ctxGet_ctxSet (c : Ctx) (x y : String) (v : Int) :
    ctxGet (ctxSet c y v) x = if y = x then some v else ctxGet c x := by
  induction c with
  | nil => simp [ctxGet, ctxSet]
  | cons hd tl ih =>
    obtain ⟨z, w⟩ := hd
    by_cases hzy : z = y
    · subst hzy
      simp only [ctxSet, if_pos rfl, ctxGet]
      by_cases hzx : z = x
      · simp [hzx]
      · simp [hzx, ctxGet]
    · simp only [ctxSet, if_neg hzy, ctxGet]
      by_cases hzx : z = x
      · subst hzx
        have : ¬ y = z := fun h => hzy h.symm
        simp [this]
      · simp [hzx, ih]

theorem execStmt_preserves (c : Code) (ctx ctx' : Ctx) (out : String) (x : String)
    (hok : execStmt c ctx = .ok (ctx', out)) (hna : codeAssigns c x = false) :
    ctxGet ctx' x = ctxGet ctx x := by
  cases c with
  | assign y n =>
    simp only [execStmt, Except.ok.injEq, Prod.mk.injEq] at hok
    simp only [codeAssigns, decide_eq_false_iff_not] at hna
    rw [← hok.1, ctxGet_ctxSet, if_neg hna]
  | name y =>
    simp only [execStmt] at hok
    cases h : ctxGet ctx y with
    | some v => rw [h] at hok; simp at hok; rw [← hok.1]
    | none => rw [h] at hok; simp at hok
  | lit n => simp only [execStmt, Except.ok.injEq, Prod.mk.injEq] at hok; rw [← hok.1]
  | printLit s => simp only [execStmt, Except.ok.injEq, Prod.mk.injEq] at hok; rw [← hok.1]
  | raiseErr m => simp [execStmt] at hok

theorem execList_preserves (cs : List Code) (ctx : Ctx) (st : ProcState) (x : String)
    (h : ∀ c ∈ cs, codeAssigns c x = false) :
    ctxGet (execList cs ctx st).2.1 x = ctxGet ctx x := by
  induction cs generalizing ctx st with
  | nil => simp [execList]
  | cons c rest ih =>
    have hc : codeAssigns c x = false := h c (by simp)
    have hrest : ∀ d ∈ rest, codeAssigns d x = false := fun d hd => h d (by simp [hd])
    simp only [execList, exec_and_get_results]
    cases hex : execStmt c ctx with
    | error e => simp
    | ok r =>
      obtain ⟨ctx', out⟩ := r
      have hstep : ctxGet ctx' x = ctxGet ctx x := execStmt_preserves c ctx ctx' out x hex hc
      simp only []
      cases hrec : execList rest ctx' { stdout := st.stdout } with
      | mk except rest2 =>
        obtain ⟨ctx'', st''⟩ := rest2
        have := ih ctx' { stdout := st.stdout } hrest
        rw [hrec] at this
        cases except <;> simp_all

theorem dispatchArgs_context (g : Ctx) (a : List JVal) (ctx : Ctx) (pst : ProcState)
    (x : String) (h : ∀ c ∈ argsExecCodes a, codeAssigns c x = false) :
    ctxGet (dispatchArgs g a ctx pst).2.1 x = ctxGet ctx x := by
  match a with
  | [] => simp [dispatchArgs]
  | a0 :: rest =>
    simp only [dispatchArgs, List.length_cons, Nat.succ_pos, if_pos]
    by_cases h0 : a0 = JVal.str "python-fu-eval"
    · rw [if_pos h0]
      cases h1 : (a0 :: rest).get? 1 with
      | none => simp [h1]
      | some v =>
        cases v with
        | str s => simp [h1]
        | codes es => cases hev : evalList es g <;> simp [h1, hev]
    · rw [if_neg h0]
      cases h1 : (a0 :: rest).get? 1 with
      | none => simp [h1]
      | some v =>
        cases v with
        | str s => simp [h1]
        | codes cs =>
          have hcs : ∀ c ∈ cs, codeAssigns c x = false := by
            intro c hc
            apply h
            simp only [argsExecCodes, if_neg h0, h1]
            exact hc
          have hpres := execList_preserves cs ctx pst x hcs
          cases hex : execList cs ctx pst with
          | mk exc p =>
            obtain ⟨ctx', pst'⟩ := p
            rw [hex] at hpres
            cases exc <;> simp_all [h1]

theorem execute_command_context_preserves (env : GimpEnv) (g : Ctx) (parse : JsonParse)
    (st : ServerState) (r : String) (x : String)
    (h : ∀ c ∈ requestExecCodes parse r, codeAssigns c x = false) :
    ctxGet (execute_command env g parse st r).2.context x = ctxGet st.context x := by
  simp only [execute_command, execute_command_body]
  by_cases hs : r = "disable_auto_disconnect"
  · simp [hs]
  · rw [if_neg hs]
    simp only [requestExecCodes, if_neg hs] at h
    cases hp : parse r with
    | none => simp
    | some j =>
      simp only [hp] at h
      simp only []
      by_cases h1 : j.type = some "get_image_bitmap"
      · simp [h1]
      · rw [if_neg h1]
        by_cases h2 : j.type = some "get_image_metadata"
        · simp [h2]
        · rw [if_neg h2]
          by_cases h3 : j.type = some "get_gimp_info"
          · simp [h3]
          · rw [if_neg h3]
            by_cases h4 : j.type = some "get_context_state"
            · simp [h4]
            · rw [if_neg h4]
              have hroute : isIntrospectionRoute j.type = false := by
                simp [isIntrospectionRoute, h1, h2, h3, h4]
              simp only [hroute, Bool.false_eq_true, if_false] at h
              cases hc : j.cmds with
              | some l =>
                simp only [hc] at h
                have hpres := dispatchArgs_context g
                  [JVal.str "python-fu-exec", JVal.codes l] st.context st.proc x h
                cases hd : dispatchArgs g [JVal.str "python-fu-exec", JVal.codes l]
                    st.context st.proc with
                | mk res p =>
                  obtain ⟨ctx', pst'⟩ := p
                  rw [hd] at hpres
                  cases res <;> simp_all
              | none =>
                simp only [hc] at h
                cases hpar : j.params with
                | none => simp
                | some p =>
                  simp only [hpar] at h
                  cases hargs : p.args with
                  | none => simp [hargs]
                  | some a =>
                    simp only [hargs] at h
                    have hpres := dispatchArgs_context g a st.context st.proc x h
                    cases hd : dispatchArgs g a st.context st.proc with
                    | mk res q =>
                      obtain ⟨ctx', pst'⟩ := q
                      rw [hd] at hpres
                      cases res <;> simp_all [hargs]

/-! ### Claim C9 -/

/-- C9: `exec_and_get_results` restores the process-wide `sys.stdout` only on
the normal path: when the `exec`-ed statement raises, `sys.stdout` stays bound
to the internal capture buffer after the call, and this redirection persists
beyond the failing request even though the dispatcher converts the exception
into an error envelope. -/
theorem stdout_not_restored_on_exec_failure :
    (∀ (c : Code) (ctx : Ctx) (st : ProcState) (e : String),
      execStmt c ctx = .error e →
      (exec_and_get_results c ctx st).2.stdout = .captureBuffer)
    ∧ (∀ (c : Code) (ctx : Ctx) (st : ProcState) (r : Ctx × String),
      execStmt c ctx = .ok r →
      (exec_and_get_results c ctx st).2.stdout = st.stdout)
    ∧ (∀ (env : GimpEnv) (g : Ctx) (parse : JsonParse) (st : ServerState)
        (r : String) (c : Code) (e : String),
      r ≠ "disable_auto_disconnect" →
      parse r = some { cmds := some [c] } →
      execStmt c st.context = .error e →
      (execute_command env g parse st r).1.status = "error" ∧
        (execute_command env g parse st r).2.proc.stdout = .captureBuffer) := by
  refine ⟨?_, ?_, ?_⟩
  · intro c ctx st e hexec
    simp [exec_and_get_results, hexec]
  · intro c ctx st r hexec
    obtain ⟨ctx', out⟩ := r
    simp [exec_and_get_results, hexec]
  · intro env g parse st r c e hs hp hexec
    simp [execute_command, execute_command_body, hs, hp, dispatchArgs, execList,
      exec_and_get_results, hexec]

/-- C9 witness: a concrete failing statement in a concrete request leaves
stdout redirected. -/
theorem stdout_not_restored_on_exec_failure_witness :
    (execute_command demoEnv demoGlobals demoParse initialServerState reqRaise).1.status
        = "error" ∧
      (execute_command demoEnv demoGlobals demoParse initialServerState
        reqRaise).2.proc.stdout = .captureBuffer :=
  stdout_not_restored_on_exec_failure.2.2 demoEnv demoGlobals demoParse
    initialServerState reqRaise (Code.raiseErr "Exception: 0") "Exception: 0"
    (by decide) (by decide) rfl

/-! ### Claim C3 -/

/-- C3 counterexample: a request whose argument list is empty after mode
selection gets an *error* envelope (`No command arguments provided`), not the
success/no-op envelope the claim describes; the `[NULL]`-result branch of the
source is unreachable dead code behind the empty-args guard. -/
theorem empty_args_request_gets_error_envelope_concrete :
    (execute_command demoEnv demoGlobals demoParse initialServerState reqEmptyArgs)
      = (emptyArgsResp, initialServerState) ∧ emptyArgsResp.status = "error" := by
  constructor
  · decide
  · decide

/-- C3 amended: for every request whose extracted argument list is empty
after mode selection, the dispatcher returns the error envelope with status
`error` and message `No command arguments provided` (and an unchanged server
state), never a success envelope. -/
theorem empty_args_request_error_envelope :
    ∀ (env : GimpEnv) (g : Ctx) (parse : JsonParse) (st : ServerState)
      (r : String) (j : JObj) (p : JParams),
      r ≠ "disable_auto_disconnect" →
      parse r = some j →
      isIntrospectionRoute j.type = false →
      j.cmds = none →
      j.params = some p →
      p.args = some [] →
      execute_command env g parse st r = (emptyArgsResp, st) := by
  intro env g parse st r j p hs hp hroute hcmds hpar hargs
  simp only [isIntrospectionRoute, Bool.or_eq_false_iff, decide_eq_false_iff_not] at hroute
  obtain ⟨⟨⟨h1, h2⟩, h3⟩, h4⟩ := hroute
  simp [execute_command, execute_command_body, hs, hp, h1, h2, h3, h4, hcmds,
    hpar, hargs, dispatchArgs]

/-- C3 witness: the amended statement at the concrete empty-args request. -/
theorem empty_args_request_error_envelope_witness :
    execute_command demoEnv demoGlobals demoParse initialServerState reqEmptyArgs
      = (emptyArgsResp, initialServerState) :=
  empty_args_request_error_envelope demoEnv demoGlobals demoParse initialServerState
    reqEmptyArgs { params := some { args := some [] } } { args := some [] }
    (by decide) (by decide) (by decide) (by decide) (by decide) (by decide)

/-! ### Claim C2 -/

/-- Statements executed through the `cmds`/`python-fu-exec` routes read the
shared persistent context: a request executing a bare `name` statement
succeeds whenever the name is bound in `self.context`. -/
theorem exec_sees_persistent_context (env : GimpEnv) (g : Ctx) (parse : JsonParse)
    (st : ServerState) (r : String) (x : String)
    (hs : r ≠ "disable_auto_disconnect")
    (hp : parse r = some { cmds := some [Code.name x] })
    (hx : (ctxGet st.context x).isSome = true) :
    (execute_command env g parse st r).1
      = { status := "success", results := some (.vals [""]) } := by
  obtain ⟨v, hv⟩ := Option.isSome_iff_exists.mp hx
  simp [execute_command, execute_command_body, hs, hp, dispatchArgs, execList,
    exec_and_get_results, execStmt, hv]

/-- Expression evaluation reads the module's global namespace, not
`self.context`: an eval request for a name unbound in the module globals
raises `NameError` (and is wrapped into an error envelope), regardless of what
the persistent context holds. -/
theorem eval_reads_module_globals (env : GimpEnv) (g : Ctx) (parse : JsonParse)
    (st : ServerState) (r : String) (x : String)
    (hs : r ≠ "disable_auto_disconnect")
    (hp : parse r = some
      { params := some ⟨some [JVal.str "python-fu-eval", JVal.codes [Code.name x]], {}⟩ })
    (hx : ctxGet g x = none) :
    (execute_command env g parse st r).1
      = { status := "error",
          error := some ("NameError: name " ++ x ++ " is not defined"),
          traceback := some (pyTraceback ("NameError: name " ++ x ++ " is not defined")) } := by
  simp [execute_command, execute_command_body, hs, hp, dispatchArgs, evalList,
    evalExpr, hx]

/-- C2 counterexample: the claim fails on the code for the expression
sub-mode.  A statement request defines `x = 5` in the persistent context (as
the middle conjunct shows, the binding is there), yet the following
`python-fu-eval` request for `x` on the same server returns a `NameError`
error envelope instead of the value — `eval` is invoked without the shared
context. -/
theorem exec_defined_variable_not_visible_to_eval :
    (ctxGet ((execute_command demoEnv demoGlobals demoParse initialServerState
        reqDefineX).2).context "x" = some 5) ∧
    ((execute_command demoEnv demoGlobals demoParse
        (execute_command demoEnv demoGlobals demoParse initialServerState
          reqDefineX).2 reqEvalX).1.status = "error") := by
  constructor
  · decide
  · decide

/-- C2 amended: every statement of both statement routes (`cmds` and
`python-fu-exec`) runs against the single process-wide persistent context, so
a variable defined by a statement in one request stays visible to the
statements of every later request (on any connection) that does not reassign
it; expression evaluation (`python-fu-eval`), however, runs against the plugin
module's global namespace, so statement-defined variables are *not* visible to
expressions. -/
theorem persistent_context_statements_only :
    (∀ (env : GimpEnv) (g : Ctx) (parse : JsonParse) (st : ServerState)
        (r : String) (x : String) (v : Int),
      ctxGet st.context x = some v →
      (∀ c ∈ requestExecCodes parse r, codeAssigns c x = false) →
      ctxGet (execute_command env g parse st r).2.context x = some v)
    ∧ (∀ (env : GimpEnv) (g : Ctx) (parse : JsonParse) (st : ServerState)
        (r : String) (x : String),
      r ≠ "disable_auto_disconnect" →
      parse r = some { cmds := some [Code.name x] } →
      (ctxGet st.context x).isSome = true →
      (execute_command env g parse st r).1
        = { status := "success", results := some (.vals [""]) })
    ∧ (∀ (env : GimpEnv) (g : Ctx) (parse : JsonParse) (st : ServerState)
        (r : String) (x : String),
      r ≠ "disable_auto_disconnect" →
      parse r = some
        { params := some ⟨some [JVal.str "python-fu-eval", JVal.codes [Code.name x]], {}⟩ } →
      ctxGet g x = none →
      (execute_command env g parse st r).1
        = { status := "error",
            error := some ("NameError: name " ++ x ++ " is not defined"),
            traceback := some (pyTraceback ("NameError: name " ++ x ++ " is not defined")) }) := by
  refine ⟨?_, ?_, ?_⟩
  · intro env g parse st r x v hv h
    rw [execute_command_context_preserves env g parse st r x h, hv]
  · exact exec_sees_persistent_context
  · exact eval_reads_module_globals

/-- C2 witness: the amended statement at concrete inputs — the persisted
binding from `x = 5` is visible to a later statement request, and unbound
names stay invisible to eval. -/
theorem persistent_context_statements_only_witness :
    (execute_command demoEnv demoGlobals demoParse
      (execute_command demoEnv demoGlobals demoParse initialServerState
        reqDefineX).2 reqReadX).1
      = { status := "success", results := some (.vals [""]) } :=
  persistent_context_statements_only.2.1 demoEnv demoGlobals demoParse
    (execute_command demoEnv demoGlobals demoParse initialServerState reqDefineX).2
    reqReadX "x" (by decide) (by decide) (by decide)

/-! ### Envelope status normalization -/

theorem pyTraceback_ne_empty (e : String) : pyTraceback e ≠ "" := by
  intro h
  have hlen : (pyTraceback e).length = 0 := by rw [h]; rfl
  have h35 : ("Traceback (most recent call last): " : String).length = 35 := rfl
  rw [pyTraceback, String.length_append, h35] at hlen
  omega

theorem checkRegionField_status (k : String) (v : Option PyVal) (e : Resp)
    (h : checkRegionField k v = some e) : e.status = "error" := by
  cases v with
  | none => simp [checkRegionField] at h
  | some pv =>
    cases pv with
    | vint n =>
      by_cases hn : n < 0
      · simp only [checkRegionField, if_pos hn, Option.some.injEq] at h
        rw [← h]; rfl
      · simp [checkRegionField, hn] at h
    | vother t =>
      simp only [checkRegionField, Option.some.injEq] at h
      rw [← h]; rfl

theorem validateRegion_status (r : RegionDict) (e : Resp)
    (h : validateRegion r = some e) : e.status = "error" := by
  unfold validateRegion at h
  by_cases ht : r.truthy
  · rw [if_pos ht] at h
    cases h1 : checkRegionField "origin_x" r.origin_x with
    | some e1 => simp only [h1, Option.some.injEq] at h; exact h ▸ checkRegionField_status _ _ _ h1
    | none =>
      rw [h1] at h
      cases h2 : checkRegionField "origin_y" r.origin_y with
      | some e2 => simp only [h2, Option.some.injEq] at h; exact h ▸ checkRegionField_status _ _ _ h2
      | none =>
        rw [h2] at h
        cases h3 : checkRegionField "width" r.width with
        | some e3 => simp only [h3, Option.some.injEq] at h; exact h ▸ checkRegionField_status _ _ _ h3
        | none =>
          rw [h3] at h
          cases h4 : checkRegionField "height" r.height with
          | some e4 => simp only [h4, Option.some.injEq] at h; exact h ▸ checkRegionField_status _ _ _ h4
          | none =>
            rw [h4] at h
            cases h5 : checkRegionField "max_width" r.max_width with
            | some e5 => simp only [h5, Option.some.injEq] at h; exact h ▸ checkRegionField_status _ _ _ h5
            | none =>
              rw [h5] at h
              simp only [] at h
              exact checkRegionField_status _ _ _ h
  · rw [if_neg ht] at h
    simp at h

theorem regionStep_error_status (original : GImage) (ox oy rw rh : Option Int)
    (e : Resp) (tr : List Ev)
    (h : regionStep original ox oy rw rh = .error (e, tr)) : e.status = "error" := by
  unfold regionStep at h
  repeat' split at h
  all_goals simp_all [boundsResp, noLayersOrigResp, requiredParamsResp]
  all_goals (rw [← h.1]; try rfl)

theorem scaleStep_error_status (env : GimpEnv) (working : WImg) (sdw : Bool)
    (target? : Option (Int × Int)) (tw th : Int) (e : Resp) (tr : List Ev)
    (h : scaleStep env working sdw target? tw th = .error (e, tr)) :
    e.status = "error" := by
  unfold scaleStep at h
  repeat' split at h
  all_goals simp_all [scaleFailedResp]
  all_goals (rw [← h.1]; try rfl)

theorem bitmap_status (env : GimpEnv) (p : BitmapParams) :
    (get_current_image_bitmap env p).1.status = "success" ∨
      (get_current_image_bitmap env p).1.status = "error" := by
  unfold get_current_image_bitmap
  cases hv : validateRegion p.region with
  | some e => right; exact validateRegion_status _ _ hv
  | none =>
    cases henv : env.images with
    | nil => right; rfl
    | cons original rest =>
      simp only []
      cases hr : regionStep original (asInt p.region.origin_x) (asInt p.region.origin_y)
          (asInt p.region.width) (asInt p.region.height) with
      | error r =>
        obtain ⟨e, tr⟩ := r
        right
        exact regionStep_error_status _ _ _ _ _ _ _ hr
      | ok w3 =>
        obtain ⟨working, sdw, tr1⟩ := w3
        simp only []
        cases hsc : scaleStep env working sdw
            (chooseScaleTarget (asInt p.region.max_width) (asInt p.region.max_height)
              p.max_width p.max_height)
            (match chooseScaleTarget (asInt p.region.max_width) (asInt p.region.max_height)
                p.max_width p.max_height with
              | some (mw, mh) => centerInsideScale working.width working.height mw mh
              | none => ((working.width : Int), (working.height : Int))).1
            (match chooseScaleTarget (asInt p.region.max_width) (asInt p.region.max_height)
                p.max_width p.max_height with
              | some (mw, mh) => centerInsideScale working.width working.height mw mh
              | none => ((working.width : Int), (working.height : Int))).2 with
      | error r =>
        obtain ⟨e, tr2⟩ := r
        right
        exact scaleStep_error_status _ _ _ _ _ _ _ _ hsc
      | ok f3 =>
        obtain ⟨finalImg, sdf, tr2⟩ := f3
        simp only []
        by_cases hl : finalImg.layers = 0
        · right; simp [hl, noLayersProcessedResp]
        · by_cases he : env.exportOk
          · left; simp [hl, he]
          · right; simp [hl, he, exportFailedResp]

theorem dispatchArgs_ok_status (g : Ctx) (a : List JVal) (ctx : Ctx)
    (pst : ProcState) (resp : Resp) (ctx' : Ctx) (pst' : ProcState)
    (h : dispatchArgs g a ctx pst = (.ok resp, ctx', pst')) :
    resp.status = "success" ∨ resp.status = "error" := by
  unfold dispatchArgs at h
  repeat' split at h
  all_goals simp_all [emptyArgsResp]
  all_goals (rw [← h.1]; simp)

theorem execute_command_body_ok_status (env : GimpEnv) (g : Ctx)
    (parse : JsonParse) (st : ServerState) (r : String) (resp : Resp)
    (st' : ServerState)
    (h : execute_command_body env g parse st r = (.ok resp, st')) :
    resp.status = "success" ∨ resp.status = "error" := by
  unfold execute_command_body at h
  by_cases hs : r = "disable_auto_disconnect"
  · rw [if_pos hs] at h
    left
    simp only [Prod.mk.injEq, Except.ok.injEq] at h
    rw [← h.1]
  · rw [if_neg hs] at h
    cases hp : parse r with
    | none => rw [hp] at h; simp at h
    | some j =>
      rw [hp] at h
      simp only [] at h
      by_cases h1 : j.type = some "get_image_bitmap"
      · rw [if_pos h1] at h
        simp only [Prod.mk.injEq, Except.ok.injEq] at h
        rw [← h.1]
        exact bitmap_status _ _
      · rw [if_neg h1] at h
        by_cases h2 : j.type = some "get_image_metadata"
        · rw [if_pos h2] at h
          simp only [Prod.mk.injEq, Except.ok.injEq] at h
          rw [← h.1]
          unfold get_current_image_metadata
          cases env.images with
          | nil => right; rfl
          | cons a b => left; rfl
        · rw [if_neg h2] at h
          by_cases h3 : j.type = some "get_gimp_info"
          · rw [if_pos h3] at h
            simp only [Prod.mk.injEq, Except.ok.injEq] at h
            rw [← h.1]; left; rfl
          · rw [if_neg h3] at h
            by_cases h4 : j.type = some "get_context_state"
            · rw [if_pos h4] at h
              simp only [Prod.mk.injEq, Except.ok.injEq] at h
              rw [← h.1]; left; rfl
            · rw [if_neg h4] at h
              cases hc : j.cmds with
              | some l =>
                simp only [hc] at h
                cases hd : dispatchArgs g [JVal.str "python-fu-exec", JVal.codes l]
                    st.context st.proc with
                | mk res q =>
                  obtain ⟨ctx', pst'⟩ := q
                  rw [hd] at h
                  simp only [Prod.mk.injEq] at h
                  cases res with
                  | error e => simp at h
                  | ok rr =>
                    have : rr = resp := by simpa using h.1
                    rw [← this]
                    exact dispatchArgs_ok_status g _ st.context st.proc rr ctx' pst' hd
              | none =>
                simp only [hc] at h
                cases hpar : j.params with
                | none => simp only [hpar] at h; simp at h
                | some p =>
                  simp only [hpar] at h
                  cases hargs : p.args with
                  | none => simp only [hargs] at h; simp at h
                  | some a =>
                    simp only [hargs] at h
                    cases hd : dispatchArgs g a st.context st.proc with
                    | mk res q =>
                      obtain ⟨ctx', pst'⟩ := q
                      rw [hd] at h
                      simp only [Prod.mk.injEq] at h
                      cases res with
                      | error e => simp at h
                      | ok rr =>
                        have : rr = resp := by simpa using h.1
                        rw [← this]
                        exact dispatchArgs_ok_status g a st.context st.proc rr ctx' pst' hd

/-! ### Claim C7 -/

/-- C7: every exception raised during routing, execution, or evaluation inside
`execute_command` is caught at the dispatcher boundary and becomes an error
envelope whose `error` field carries the exception message and whose
`traceback` field carries a non-empty stack-trace string; no exception escapes
(every dispatcher result is a plain success-or-error envelope, so the
connection handler never terminates abnormally). -/
theorem dispatcher_converts_exceptions_to_error_envelopes :
    (∀ (env : GimpEnv) (g : Ctx) (parse : JsonParse) (st : ServerState)
        (r : String) (e : String) (st' : ServerState),
      execute_command_body env g parse st r = (.error e, st') →
      execute_command env g parse st r
        = ({ status := "error", error := some e, traceback := some (pyTraceback e) }, st')
        ∧ pyTraceback e ≠ "")
    ∧ (∀ (env : GimpEnv) (g : Ctx) (parse : JsonParse) (st : ServerState) (r : String),
      (execute_command env g parse st r).1.status = "success" ∨
        (execute_command env g parse st r).1.status = "error") := by
  constructor
  · intro env g parse st r e st' h
    refine ⟨?_, pyTraceback_ne_empty e⟩
    unfold execute_command
    rw [h]
  · intro env g parse st r
    unfold execute_command
    cases hb : execute_command_body env g parse st r with
    | mk res st' =>
      cases res with
      | error e => right; rfl
      | ok resp => exact execute_command_body_ok_status env g parse st r resp st' hb

/-- C7 witness: a concrete raising statement yields the concrete error
envelope with a non-empty traceback. -/
theorem dispatcher_converts_exceptions_to_error_envelopes_witness :
    (execute_command demoEnv demoGlobals demoParse initialServerState reqRaise
      = ({ status := "error", error := some "Exception: 0",
           traceback := some (pyTraceback "Exception: 0") },
         { context := [("Gimp", 0)], autoDisconnect := true,
           proc := { stdout := .captureBuffer } })
      ∧ pyTraceback "Exception: 0" ≠ "") :=
  dispatcher_converts_exceptions_to_error_envelopes.1 demoEnv demoGlobals demoParse
    initialServerState reqRaise "Exception: 0"
    { context := [("Gimp", 0)], autoDisconnect := true,
      proc := { stdout := .captureBuffer } } rfl

/-! ### Claim C8 -/

/-- No dispatcher branch ever re-enables auto-disconnect: once the flag is
false it stays false across any request. -/
theorem execute_command_body_flag (env : GimpEnv) (g : Ctx) (parse : JsonParse)
    (st : ServerState) (r : String) (h : st.autoDisconnect = false) :
    (execute_command_body env g parse st r).2.autoDisconnect = false := by
  unfold execute_command_body
  repeat' split
  all_goals simp_all

theorem execute_command_flag (env : GimpEnv) (g : Ctx) (parse : JsonParse)
    (st : ServerState) (r : String) (h : st.autoDisconnect = false) :
    (execute_command env g parse st r).2.autoDisconnect = false := by
  have hb := execute_command_body_flag env g parse st r h
  unfold execute_command
  cases hbody : execute_command_body env g parse st r with
  | mk res st' =>
    rw [hbody] at hb
    cases res <;> simpa using hb

theorem handle_client_state_flag (env : GimpEnv) (g : Ctx) (parse : JsonParse)
    (st : ServerState) (chunks : List String) (h : st.autoDisconnect = false) :
    (handle_client env g parse st chunks).2.2.autoDisconnect = false := by
  unfold handle_client
  by_cases hb : readLoop parse chunks "" = ""
  · simp [hb, h]
  · simp only [hb, if_neg hb, if_false]
    simpa using execute_command_flag env g parse st (readLoop parse chunks "") h

theorem handle_client_no_close (env : GimpEnv) (g : Ctx) (parse : JsonParse)
    (st : ServerState) (chunks : List String) (h : st.autoDisconnect = false) :
    (handle_client env g parse st chunks).2.1 = false := by
  unfold handle_client
  by_cases hb : readLoop parse chunks "" = ""
  · simp [hb]
  · simp only [hb, if_neg hb, if_false]
    simpa using execute_command_flag env g parse st (readLoop parse chunks "") h

theorem handle_client_responds (env : GimpEnv) (g : Ctx) (parse : JsonParse)
    (st : ServerState) (chunks : List String)
    (h : readLoop parse chunks "" ≠ "") :
    ((handle_client env g parse st chunks).1).isSome = true := by
  unfold handle_client
  simp [h]

theorem serverRun_flag_false (env : GimpEnv) (g : Ctx) (parse : JsonParse) :
    ∀ (conns : List (List String)) (st : ServerState),
      st.autoDisconnect = false →
      (serverRun env g parse st conns).1.autoDisconnect = false ∧
        ∀ out ∈ (serverRun env g parse st conns).2, out.2 = false := by
  intro conns
  induction conns with
  | nil =>
    intro st h
    exact ⟨h, by simp [serverRun]⟩
  | cons conn rest ih =>
    intro st h
    unfold serverRun
    cases hh : handle_client env g parse st conn with
    | mk resp q =>
      obtain ⟨closed, st'⟩ := q
      have hst' : st'.autoDisconnect = false := by
        have := handle_client_state_flag env g parse st conn h
        rw [hh] at this
        exact this
      have hcl : closed = false := by
        have := handle_client_no_close env g parse st conn h
        rw [hh] at this
        exact this
      cases hsr : serverRun env g parse st' rest with
      | mk stF outs =>
        have hrec := ih st' hst'
        rw [hsr] at hrec
        simp only [hsr]
        refine ⟨hrec.1, ?_⟩
        intro out hout
        simp only [List.mem_cons] at hout
        rcases hout with h1 | h2
        · rw [h1]; exact hcl
        · exact hrec.2 out h2

/-- C8: processing the literal `"disable_auto_disconnect"` message answers
with the fixed success envelope and clears the server-wide flag; from then on
no request ever sets it back, every connection handled with the flag cleared
leaves its connection open, and every completed message still gets a response
— over any whole server run, once the flag is cleared every subsequent
connection output is left open. -/
theorem auto_disconnect_disabled_for_lifetime :
    (∀ (env : GimpEnv) (g : Ctx) (parse : JsonParse) (st : ServerState),
      execute_command env g parse st "disable_auto_disconnect"
        = ({ status := "success", results := some (.str "OK") },
            { st with autoDisconnect := false }))
    ∧ (∀ (env : GimpEnv) (g : Ctx) (parse : JsonParse) (st : ServerState) (r : String),
      st.autoDisconnect = false →
      (execute_command env g parse st r).2.autoDisconnect = false)
    ∧ (∀ (env : GimpEnv) (g : Ctx) (parse : JsonParse) (st : ServerState)
        (chunks : List String),
      st.autoDisconnect = false →
      (handle_client env g parse st chunks).2.1 = false)
    ∧ (∀ (env : GimpEnv) (g : Ctx) (parse : JsonParse) (st : ServerState)
        (chunks : List String),
      readLoop parse chunks "" ≠ "" →
      ((handle_client env g parse st chunks).1).isSome = true)
    ∧ (∀ (env : GimpEnv) (g : Ctx) (parse : JsonParse) (st : ServerState)
        (conns : List (List String)),
      st.autoDisconnect = false →
      (serverRun env g parse st conns).1.autoDisconnect = false ∧
        ∀ out ∈ (serverRun env g parse st conns).2, out.2 = false) := by
  refine ⟨?_, execute_command_flag, handle_client_no_close, handle_client_responds, ?_⟩
  · intro env g parse st
    rfl
  · intro env g parse st conns h
    exact serverRun_flag_false env g parse conns st h

/-- C8 witness: after the sentinel message is processed, a later connection
carrying a concrete request is answered and left open. -/
theorem auto_disconnect_disabled_for_lifetime_witness :
    (handle_client demoEnv demoGlobals demoParse
      (execute_command demoEnv demoGlobals demoParse initialServerState
        "disable_auto_disconnect").2 [reqEmptyArgs]).2.1 = false :=
  auto_disconnect_disabled_for_lifetime.2.2.1 demoEnv demoGlobals demoParse
    (execute_command demoEnv demoGlobals demoParse initialServerState
      "disable_auto_disconnect").2 [reqEmptyArgs] (by decide)

/-! ### Claim C4 -/

/-- C4 counterexample: the peer sends the single byte `{` — a non-empty buffer
that is not a complete JSON document — and closes.  The handler does *not*
drop the connection silently: it dispatches the incomplete buffer and writes a
JSON-decode error envelope (and, auto-disconnect being enabled, closes the
connection afterwards). -/
theorem nonempty_incomplete_buffer_still_answered :
    (handle_client demoEnv demoGlobals demoParse initialServerState ["\x7b"]).1
      = some { status := "error", error := some jsonDecodeErrMsg,
               traceback := some (pyTraceback jsonDecodeErrMsg) } := by
  decide

/-- C4 amended: when the peer closes before the buffer parses as one complete
JSON document, the handler drops the connection with no response only if the
accumulated buffer is *empty*; every non-empty buffer at close is handed to
the dispatcher and a response is written — the fixed success envelope when the
buffer is the literal `"disable_auto_disconnect"` sentinel (which, not being
JSON, only ever completes through exactly this peer-close path), and the
JSON-decode error envelope for any other buffer that does not parse. -/
theorem silent_drop_iff_empty_buffer :
    (∀ (env : GimpEnv) (g : Ctx) (parse : JsonParse) (st : ServerState)
        (chunks : List String),
      (handle_client env g parse st chunks).1 = none ↔
        readLoop parse chunks "" = "")
    ∧ (∀ (env : GimpEnv) (g : Ctx) (parse : JsonParse) (st : ServerState)
        (chunks : List String),
      readLoop parse chunks "" = "disable_auto_disconnect" →
      (handle_client env g parse st chunks).1
        = some { status := "success", results := some (.str "OK") })
    ∧ (∀ (env : GimpEnv) (g : Ctx) (parse : JsonParse) (st : ServerState)
        (chunks : List String),
      readLoop parse chunks "" ≠ "" →
      parse (readLoop parse chunks "") = none →
      readLoop parse chunks "" ≠ "disable_auto_disconnect" →
      (handle_client env g parse st chunks).1
        = some { status := "error", error := some jsonDecodeErrMsg,
                 traceback := some (pyTraceback jsonDecodeErrMsg) }) := by
  refine ⟨?_, ?_, ?_⟩
  · intro env g parse st chunks
    unfold handle_client
    by_cases hb : readLoop parse chunks "" = ""
    · simp [hb]
    · simp [hb]
  · intro env g parse st chunks hb
    have hne : readLoop parse chunks "" ≠ "" := by
      rw [hb]; decide
    unfold handle_client
    simp only [hne, if_neg hne, if_false]
    rw [hb]
    simp [execute_command, execute_command_body]
  · intro env g parse st chunks hb hparse hsent
    unfold handle_client
    simp only [hb, if_neg hb, if_false]
    simp [execute_command, execute_command_body, hsent, hparse]

/-- C4 witness: the amended statement at two concrete connections — a single
chunk that never completes a JSON document gets the JSON-decode error
envelope, and a peer-closed sentinel buffer gets the fixed success
envelope. -/
theorem silent_drop_iff_empty_buffer_witness :
    ((handle_client demoEnv demoGlobals demoParse initialServerState ["\x7b"]).1
      = some { status := "error", error := some jsonDecodeErrMsg,
               traceback := some (pyTraceback jsonDecodeErrMsg) })
    ∧ ((handle_client demoEnv demoGlobals demoParse initialServerState
        ["disable_auto_disconnect"]).1
      = some { status := "success", results := some (.str "OK") }) :=
  ⟨silent_drop_iff_empty_buffer.2.2 demoEnv demoGlobals demoParse initialServerState
    ["\x7b"] (by decide) (by decide) (by decide),
   silent_drop_iff_empty_buffer.2.1 demoEnv demoGlobals demoParse initialServerState
    ["disable_auto_disconnect"] (by decide)⟩

/-! ### Claim C5 -/

theorem pyInt_eq_floor (q : ℚ) (h : 0 ≤ q) : pyInt q = ⌊q⌋ := by
  simp [pyInt, h]

/-- C5: the center-inside computation preserves the source aspect ratio and
sets the limiting dimension to its bound, floor-deriving the other from the
exact aspect-preserving value; and on the named concrete inputs: 1920×1080
into 800×800 gives (800, 450), 600×800 into 1000×600 gives (450, 600), and
the exact-aspect 1920×1080 into 960×540 gives exactly (960, 540). -/
theorem center_inside_scale_spec :
    (∀ (cw ch : Nat) (mw mh : Int), 0 < cw → 0 < ch → 0 < mw → 0 < mh →
      ((centerInsideScale cw ch mw mh).1 = mw ∧
        (centerInsideScale cw ch mw mh).2 = ⌊(mw : ℚ) * (ch : ℚ) / (cw : ℚ)⌋)
      ∨ ((centerInsideScale cw ch mw mh).2 = mh ∧
        (centerInsideScale cw ch mw mh).1 = ⌊(mh : ℚ) * (cw : ℚ) / (ch : ℚ)⌋))
    ∧ centerInsideScale 1920 1080 800 800 = (800, 450)
    ∧ centerInsideScale 600 800 1000 600 = (450, 600)
    ∧ centerInsideScale 1920 1080 960 540 = (960, 540) := by
  refine ⟨?_, ?_, ?_, ?_⟩
  · intro cw ch mw mh hcw hch hmw hmh
    have hcw' : (0 : ℚ) < (cw : ℚ) := by exact_mod_cast hcw
    have hch' : (0 : ℚ) < (ch : ℚ) := by exact_mod_cast hch
    have hmw' : (0 : ℚ) < (mw : ℚ) := by exact_mod_cast hmw
    have hmh' : (0 : ℚ) < (mh : ℚ) := by exact_mod_cast hmh
    have har : (0 : ℚ) < (cw : ℚ) / (ch : ℚ) := div_pos hcw' hch'
    simp only [centerInsideScale]
    by_cases hgt : ((cw : ℚ) / (ch : ℚ)) > ((mw : ℚ) / (mh : ℚ))
    · left
      rw [if_pos hgt]
      refine ⟨rfl, ?_⟩
      have hq : (0 : ℚ) ≤ (mw : ℚ) / ((cw : ℚ) / (ch : ℚ)) :=
        le_of_lt (div_pos hmw' har)
      rw [pyInt_eq_floor _ hq, div_div_eq_mul_div]
    · right
      rw [if_neg hgt]
      refine ⟨rfl, ?_⟩
      have hq : (0 : ℚ) ≤ (mh : ℚ) * ((cw : ℚ) / (ch : ℚ)) :=
        le_of_lt (mul_pos hmh' har)
      rw [pyInt_eq_floor _ hq, ← mul_div_assoc]
  · norm_num [centerInsideScale, pyInt]
  · norm_num [centerInsideScale, pyInt]
  · norm_num [centerInsideScale, pyInt]

/-- C5 witness: the general conjunct instantiated at 1920×1080 into 800×800. -/
theorem center_inside_scale_spec_witness :
    ((centerInsideScale 1920 1080 800 800).1 = 800 ∧
      (centerInsideScale 1920 1080 800 800).2
        = ⌊((800 : Int) : ℚ) * ((1080 : Nat) : ℚ) / ((1920 : Nat) : ℚ)⌋)
    ∨ ((centerInsideScale 1920 1080 800 800).2 = 800 ∧
      (centerInsideScale 1920 1080 800 800).1
        = ⌊((800 : Int) : ℚ) * ((1920 : Nat) : ℚ) / ((1080 : Nat) : ℚ)⌋) := by
  exact center_inside_scale_spec.1 1920 1080 800 800 (by decide) (by decide)
    (by decide) (by decide)

/-! ### Claim C10 -/

/-- C10: scaling is applied only when both bounds of a pair are present: a
region-level pair with exactly one member is ignored in favour of the
top-level pair, and a top-level pair with exactly one member yields no scaling
at all — the image is exported at its unscaled size with `scaled = false`. -/
theorem scaling_only_with_complete_bounds_pair :
    (∀ (stw sth tmw tmh : Option Int),
      stw.isSome = (!sth.isSome) →
      chooseScaleTarget stw sth tmw tmh = chooseScaleTarget none none tmw tmh)
    ∧ (∀ (env : GimpEnv) (img : GImage) (rest : List GImage) (params : BitmapParams),
      env.images = img :: rest →
      img.layers ≠ 0 →
      env.exportOk = true →
      params.region = {} →
      params.max_width.isSome = (!params.max_height.isSome) →
      get_current_image_bitmap env params
        = ({ status := "success",
             results := some (.bitmap
               { width := img.width, height := img.height,
                 original_width := img.width, original_height := img.height,
                 region_extracted := false, scaled := false,
                 region_coords := none }) },
           [Ev.tempFileCreated, Ev.tempFileDeleted])) := by
  constructor
  · intro stw sth tmw tmh hone
    cases stw <;> cases sth <;> simp_all [chooseScaleTarget]
  · intro env img rest params henv hl he hreg hone
    cases hmw : params.max_width with
    | none =>
      cases hmh : params.max_height with
      | none => rw [hmw, hmh] at hone; simp at hone
      | some b =>
        simp [get_current_image_bitmap, hreg, henv, validateRegion,
          RegionDict.truthy, asInt, regionStep, chooseScaleTarget, scaleStep,
          hmw, hmh, hl, he, regionCoords]
    | some a =>
      cases hmh : params.max_height with
      | none =>
        simp [get_current_image_bitmap, hreg, henv, validateRegion,
          RegionDict.truthy, asInt, regionStep, chooseScaleTarget, scaleStep,
          hmw, hmh, hl, he, regionCoords]
      | some b => rw [hmw, hmh] at hone; simp at hone

/-- C10 witness: a top-level `max_width` without `max_height` on a 7×5 image
exports the unscaled image with `scaled = false`. -/
theorem scaling_only_with_complete_bounds_pair_witness :
    get_current_image_bitmap { images := [{ width := 7, height := 5, layers := 1 }] }
      { max_width := some 3 }
      = ({ status := "success",
           results := some (.bitmap
             { width := 7, height := 5, original_width := 7, original_height := 5,
               region_extracted := false, scaled := false, region_coords := none }) },
         [Ev.tempFileCreated, Ev.tempFileDeleted]) :=
  scaling_only_with_complete_bounds_pair.2
    { images := [{ width := 7, height := 5, layers := 1 }] }
    { width := 7, height := 5, layers := 1 } [] { max_width := some 3 }
    rfl (by decide) rfl rfl rfl

/-! ### Claim C6 -/

theorem regionStep_missing (original : GImage) (ox oy rw rh : Option Int)
    (hany : (ox.isSome || oy.isSome || rw.isSome || rh.isSome) = true)
    (hnotall : ¬(ox.isSome = true ∧ oy.isSome = true ∧ rw.isSome = true ∧
      rh.isSome = true)) :
    regionStep original ox oy rw rh = .error (requiredParamsResp, []) := by
  cases ox <;> cases oy <;> cases rw <;> cases rh <;> simp_all [regionStep]

/-- C6 counterexample: a non-empty region dict that provides *none* of the
four keys (only unrelated keys) is not rejected with the required-parameters
error — the pipeline silently treats the request as a full-image extraction
and succeeds. -/
theorem region_with_none_of_four_keys_not_rejected :
    (get_current_image_bitmap
        { images := [{ width := 4, height := 4, layers := 1 }] }
        { region := { hasOtherKeys := true } }).1.status = "success" := by
  decide

/-- C6 amended: a region dict that provides at least one but not all of
`origin_x, origin_y, width, height` (with every provided region value passing
type/negativity validation, and some image open) fails with the
required-parameters error and an empty resource trace — no image is created
or modified; a region dict providing none of the four is instead treated as a
full-image request. -/
theorem partial_region_keys_required_params_error :
    ∀ (env : GimpEnv) (img : GImage) (rest : List GImage) (params : BitmapParams),
      env.images = img :: rest →
      validateRegion params.region = none →
      ((asInt params.region.origin_x).isSome || (asInt params.region.origin_y).isSome ||
        (asInt params.region.width).isSome || (asInt params.region.height).isSome) = true →
      ¬((asInt params.region.origin_x).isSome = true ∧
        (asInt params.region.origin_y).isSome = true ∧
        (asInt params.region.width).isSome = true ∧
        (asInt params.region.height).isSome = true) →
      get_current_image_bitmap env params = (requiredParamsResp, []) := by
  intro env img rest params henv hval hany hnotall
  unfold get_current_image_bitmap
  rw [hval, henv]
  simp only []
  rw [regionStep_missing img _ _ _ _ hany hnotall]

/-- C6 witness: the amended statement at a region dict providing only
`origin_x`. -/
theorem partial_region_keys_required_params_error_witness :
    get_current_image_bitmap { images := [{ width := 4, height := 4, layers := 1 }] }
      { region := { origin_x := some (.vint 0) } } = (requiredParamsResp, []) :=
  partial_region_keys_required_params_error
    { images := [{ width := 4, height := 4, layers := 1 }] }
    { width := 4, height := 4, layers := 1 } []
    { region := { origin_x := some (.vint 0) } }
    rfl (by decide) (by decide) (by decide)

/-! ### Claim C1 -/

def noLayersEnv : GimpEnv :=
  { images := [{ width := 10, height := 10, layers := 0 }] }

def cropRegionParams : BitmapParams :=
  { region := { origin_x := some (.vint 0), origin_y := some (.vint 0),
                width := some (.vint 5), height := some (.vint 5) } }

/-- C1 (evaluation at the failing input): a valid region request against an
original image with no layers returns the `No layers found in original image`
error with the region-crop image created and never released — its resource
trace is exactly `[created 1]`, with no matching delete, because the early
return of lines 375-378 fires after `Gimp.Image.new` (line 365) but before
the `try/finally` cleanup block is entered.  This contradicts the claimed
release-exactly-once guarantee. -/
theorem region_crop_leaked_on_no_layers_error :
    (get_current_image_bitmap noLayersEnv cropRegionParams).1 = noLayersOrigResp ∧
    (get_current_image_bitmap noLayersEnv cropRegionParams).2 = [Ev.created 1] ∧
    ((get_current_image_bitmap noLayersEnv cropRegionParams).2.count (Ev.deleted 1)) = 0 := by
  refine ⟨by decide, by decide, by decide⟩

end GimpMcp
